import Mathlib

/-!
Shallow embedding of `netlify/functions/transcribe.js` from the
bengali-captions repository.

The handler is an async JavaScript function whose effects are the reads of
`process.env`, `JSON.parse`, `Buffer.from(_, 'base64')`, `Date.now()`, and two
outbound `fetch` calls (OpenAI Whisper transcription, Google translation).
We embed it as a pure function over an oracle context `Ctx` that fixes the
outcome of each of those effects, plus the incoming `Event`.  JavaScript
truthiness, the `||` defaulting idiom, strict equality `===`, and the
nested-array indexing of the translation response are modelled explicitly on a
small JSON value type `JVal`.
-/

/-- JSON-like JavaScript values, including `undefined` (needed to model
out-of-range indexing and missing-property access). Numbers are rationals. -/
inductive JVal where
  | jundefined : JVal
  | jnull : JVal
  | jbool : Bool → JVal
  | jnum : Rat → JVal
  | jstr : String → JVal
  | jarr : List JVal → JVal
  | jobj : List (String × JVal) → JVal
deriving Repr

/-- JavaScript truthiness of a `JVal`: `undefined`, `null`, `false`, `0`, and
`""` are falsy; every other value (including `[]` and `{}`) is truthy. -/
def JVal.truthy : JVal → Bool
  | .jundefined => false
  | .jnull => false
  | .jbool b => b
  | .jnum n => n ≠ 0
  | .jstr s => s ≠ ""
  | .jarr _ => true
  | .jobj _ => true

/-- JavaScript indexing `v[i]`: arrays yield the element or `undefined`;
strings yield the one-character string or `undefined`; objects look up the
numeric key as a string; other values yield `undefined`.  (Indexing `null` or
`undefined` throws in JavaScript, but every use in the source is guarded by a
truthiness check, so that case cannot arise in the embedded code paths; we let
it be `undefined` here.) -/
def JVal.idx : JVal → Nat → JVal
  | .jarr xs, i => (xs.getD i .jundefined)
  | .jstr s, i =>
      match s.toList.get? i with
      | some c => .jstr (String.mk [c])
      | none => .jundefined
  | .jobj fs, i => ((fs.lookup (toString i)).getD .jundefined)
  | _, _ => .jundefined

/-- JavaScript property access `v.k`.  Returns `none` when the access throws
(`null`/`undefined` receiver), otherwise the property value, `undefined` when
absent or when the receiver is a primitive. -/
def JVal.getProp : JVal → String → Option JVal
  | .jundefined, _ => none
  | .jnull, _ => none
  | .jobj fs, k => some ((fs.lookup k).getD .jundefined)
  | _, _ => some .jundefined

/-- JavaScript `a || b` for an optional string `a` (absent, or present with a
value): the default `b` is used when `a` is absent or the empty string. -/
def jsOrStr (a : Option String) (b : String) : String :=
  match a with
  | none => b
  | some s => if s = "" then b else s

/-- Truthiness of an optional string value (JS: absent and `""` are falsy). -/
def optStrTruthy (a : Option String) : Bool :=
  match a with
  | none => false
  | some s => s ≠ ""

/-- `a || b` where both sides are optional strings, as in
`event.headers['content-type'] || event.headers['Content-Type']`. -/
def jsOrOpt (a b : Option String) : Option String :=
  if optStrTruthy a then a else b

/-- `String.isPrefixOf` on character lists. -/
def listPrefixOf : List Char → List Char → Bool
  | [], _ => true
  | _ :: _, [] => false
  | a :: as, b :: bs => a = b && listPrefixOf as bs

/-- JavaScript `s.includes(pat)`: substring containment. -/
def strIncludes (s pat : String) : Bool :=
  (s.toList.tails.any fun t => listPrefixOf pat.toList t)

/-- JavaScript `s.trim()`: strip leading and trailing whitespace.  (Defined
on the character list so that it evaluates by kernel reduction.) -/
def jsTrim (s : String) : String :=
  String.mk (((s.toList.dropWhile Char.isWhitespace).reverse.dropWhile
    Char.isWhitespace).reverse)

/-- A character of the Bengali Unicode block U+0980–U+09FF, the class matched
by the regex `/[ঀ-৿]/` in the source. -/
def isBengaliChar (c : Char) : Bool :=
  0x0980 ≤ c.toNat && c.toNat ≤ 0x09FF

/-- `/[ঀ-৿]/.test(s)`: some character of `s` lies in the Bengali
block.  A presence test, not a majority test. -/
def hasBengali (s : String) : Bool :=
  s.toList.any isBengaliChar

/-- The JSON body `{text, language, duration}` of a successful Whisper
response.  `none` models an absent field. -/
structure TransJson where
  text : Option String
  language : Option String
  duration : Option Rat
deriving Repr

/-- One observed outcome of the OpenAI fetch: either some step of
`fetch`/`.text()`/`.json()` rejects with a message, or an HTTP response
arrives with a status, the text of its body, and (for the `.json()` call) the
parsed body or a rejection message. -/
inductive OpenAICall where
  | throws : String → OpenAICall
  | resp : Nat → String → Except String TransJson → OpenAICall
deriving Repr

/-- One observed outcome of the Google-translate fetch: a rejection, or an
HTTP response with a status and (for `.json()`) the parsed body, `none` when
parsing rejects. -/
inductive TranslateCall where
  | throws : TranslateCall
  | resp : Nat → Option JVal → TranslateCall
deriving Repr

/-- `response.ok` of the Fetch API: status in the range 200–299. -/
def fetchOk (status : Nat) : Bool :=
  200 ≤ status && status ≤ 299

/-- The oracle environment: the `OPENAI_API_KEY` environment variable, the
behaviour of `JSON.parse` (`none` = throws) and of `Buffer.from(_, 'base64')`
(the decoded byte length), and `Date.now()`.  The outcomes of the two
outbound calls are passed to the handler separately, so that independence
from an oracle states exactly "that service is never contacted". -/
structure Env where
  apiKey : Option String
  jsonParse : String → Option JVal
  decodeLen : String → Nat
  now : Nat

/-- The incoming Netlify event: method, the two content-type header spellings
the code consults, and the (base64) body, `none` when absent. -/
structure Event where
  httpMethod : String
  ctLower : Option String
  ctUpper : Option String
  body : Option String

/-- A response body: the empty string (OPTIONS preflight) or a JSON object
with ordered fields, as built by `JSON.stringify` of an object literal. -/
inductive RBody where
  | empty : RBody
  | obj : List (String × JVal) → RBody
deriving Repr

/-- A handler response: status code, headers, body. -/
structure Response where
  statusCode : Nat
  headers : List (String × String)
  body : RBody
deriving Repr

/-- The CORS header object built at the top of the handler and attached to
every return. -/
def corsHeaders : List (String × String) :=
  [("Access-Control-Allow-Origin", "*"),
   ("Access-Control-Allow-Headers", "Content-Type, Authorization"),
   ("Access-Control-Allow-Methods", "POST, OPTIONS"),
   ("Content-Type", "application/json")]

/-- `translateToBengali(text)`: the helper's observable result as a function
of the translation-call outcome.  Every failure (rejected fetch, non-ok
status, unparsable body, truthiness-chain failure on `data[0][0][0]`)
produces `null` (= `none`); otherwise the extracted segment is returned. -/
def translateToBengali (call : TranslateCall) : Option JVal :=
  match call with
  | .throws => none
  | .resp status json =>
      if !fetchOk status then none
      else
        match json with
        | none => none
        | some data =>
            if data.truthy && (data.idx 0).truthy && ((data.idx 0).idx 0).truthy
                && (((data.idx 0).idx 0).idx 0).truthy then
              some (((data.idx 0).idx 0).idx 0)
            else none

/-- The connectivity-probe step (lines 51–69): when the body is truthy,
parses as JSON, and carries `test === true`, the probe response is produced.
`none` means "fall through to file processing" (covering both JSON-parse
exceptions and bodies without the flag). -/
def probeStep (env : Env) (ev : Event) : Option (Nat × List (String × JVal)) :=
  match ev.body with
  | none => none
  | some b =>
      if b = "" then none
      else
        match env.jsonParse b with
        | none => none
        | some v =>
            match v.getProp "test" with
            | none => none
            | some (.jbool true) =>
                some (200,
                  [("success", .jbool true),
                   ("message", .jstr "API connected successfully"),
                   ("timestamp", .jnum env.now),
                   ("apiKeyPresent", .jbool (optStrTruthy env.apiKey))])
            | some _ => none

/-- The content type the handler sees:
`event.headers['content-type'] || event.headers['Content-Type']`. -/
def contentTypeOf (ev : Event) : Option String :=
  jsOrOpt ev.ctLower ev.ctUpper

/-- `Math.round(len / (1024*1024))` for a byte length: round half up. -/
def mbRound (len : Nat) : Nat :=
  (2 * len + 1024 * 1024) / (2 * 1024 * 1024)

/-- The upstream error message chosen by status (lines 127–135). -/
def openaiErrorMessage (status : Nat) : String :=
  if status = 401 then "Invalid OpenAI API key. Please check your key."
  else if status = 429 then "OpenAI API rate limit exceeded. Please try again later."
  else if status = 413 then "Audio file too large for OpenAI API."
  else "OpenAI API request failed"

/-- `x || null` for the optional numeric `duration` field: absent and `0`
both become `null`. -/
def jsNumOrNull (a : Option Rat) : JVal :=
  match a with
  | none => .jnull
  | some x => if x = 0 then .jnull else .jnum x

/-- Lines 152–170: starting from the transcribed text (`text || ''`), the
Bengali-presence check and the conditional translation with its silent
fallback, producing the value of the `bengali` response field. -/
def bengaliValue (tr : TranslateCall) (bengaliText0 : String) : JVal :=
  let isBengali := hasBengali bengaliText0
  if !isBengali && jsTrim bengaliText0 ≠ "" then
    match translateToBengali tr with
    | some v => if v.truthy then v else .jstr bengaliText0
    | none => .jstr bengaliText0
  else .jstr bengaliText0

/-- The transcription call and everything after it (lines 114–186): upstream
error propagation, the Bengali-presence check, the conditional translation
with silent fallback, and the success body.  `Except.error` is a thrown
exception reaching the top-level catch. -/
def openaiStage (env : Env) (oc : OpenAICall) (tr : TranslateCall) :
    Except String (Nat × List (String × JVal)) :=
  match oc with
  | .throws msg => .error msg
  | .resp status errorText json =>
      if !fetchOk status then
        .ok (status,
          [("error", .jstr (openaiErrorMessage status)),
           ("details", .jstr errorText),
           ("status", .jnum status)])
      else
        match json with
        | .error msg => .error msg
        | .ok t =>
            let originalText := jsOrStr t.text ""
            let bengaliText : JVal := bengaliValue tr originalText
            .ok (200,
              [("success", .jbool true),
               ("original", .jstr originalText),
               ("bengali", bengaliText),
               ("language_detected", .jstr (jsOrStr t.language "unknown")),
               ("confidence", .jnum (19 / 20 : Rat)),
               ("timestamp", .jnum env.now),
               ("model", .jstr "whisper-1"),
               ("duration", jsNumOrNull t.duration)])

/-- The body of the handler's `try` block (lines 34–186): credential check,
probe short-circuit, content-type check, size check, then the transcription
stage.  `Except.error msg` is an exception with message `msg` escaping to the
top-level catch (e.g. `Buffer.from(undefined, 'base64')`). -/
def handlerTry (env : Env) (oc : OpenAICall) (tr : TranslateCall) (ev : Event) :
    Except String (Nat × List (String × JVal)) :=
  if !optStrTruthy env.apiKey then
    .ok (500,
      [("error", .jstr "OpenAI API key not configured"),
       ("setup", .jstr "Add OPENAI_API_KEY to Netlify environment variables"),
       ("help", .jstr "Go to Site Settings > Environment Variables in Netlify dashboard")])
  else
    match probeStep env ev with
    | some r => .ok r
    | none =>
        let contentType := contentTypeOf ev
        if !(optStrTruthy contentType && strIncludes (contentType.getD "") "multipart/form-data") then
          .ok (400,
            [("error", .jstr "Content-Type must be multipart/form-data for audio uploads"),
             ("received", .jstr (jsOrStr contentType "none"))])
        else
          match ev.body with
          | none => .error "The first argument must be of type string or an instance of Buffer, ArrayBuffer, or Array or an Array-like Object. Received undefined"
          | some b =>
              let len := env.decodeLen b
              if len > 25 * 1024 * 1024 then
                .ok (400,
                  [("error", .jstr "Audio file too large. Maximum size is 25MB."),
                   ("fileSize", .jstr (toString (mbRound len) ++ "MB"))])
              else
                openaiStage env oc tr

/-- `exports.handler`: preflight and method checks outside the `try`, then the
pipeline, with the top-level catch converting any exception into a 500
internal-error body (lines 188–200). -/
def handler (env : Env) (oc : OpenAICall) (tr : TranslateCall) (ev : Event) : Response :=
  let headers := corsHeaders
  if ev.httpMethod = "OPTIONS" then
    { statusCode := 200, headers := headers, body := .empty }
  else if ev.httpMethod ≠ "POST" then
    { statusCode := 405, headers := headers,
      body := .obj [("error", .jstr "Method not allowed. Use POST.")] }
  else
    match handlerTry env oc tr ev with
    | .ok (s, fields) => { statusCode := s, headers := headers, body := .obj fields }
    | .error msg =>
        { statusCode := 500, headers := headers,
          body := .obj
            [("error", .jstr "Internal server error during transcription"),
             ("message", .jstr msg),
             ("timestamp", .jnum env.now)] }

/-- Look up a field of a JSON-object response body. -/
def Response.field (r : Response) (k : String) : Option JVal :=
  match r.body with
  | .empty => none
  | .obj fs => fs.lookup k

/-- The list of keys of a JSON-object response body. -/
def Response.keys (r : Response) : List String :=
  match r.body with
  | .empty => []
  | .obj fs => fs.map Prod.fst

/-!
## Pipeline-reduction lemmas

Shared lemmas describing the handler's behaviour once the early-exit
validation steps have been passed.
-/

/-- When the credential is truthy, the probe falls through, the content type
is multipart, the body is present, and the decoded length is within the 25 MiB
cap, the `try` block reduces to the transcription stage. -/
theorem handlerTry_reaches_openai (env : Env) (oc : OpenAICall) (tr : TranslateCall)
    (ev : Event) (b : String)
    (hkey : optStrTruthy env.apiKey = true)
    (hprobe : probeStep env ev = none)
    (hct : (optStrTruthy (contentTypeOf ev) &&
        strIncludes ((contentTypeOf ev).getD "") "multipart/form-data") = true)
    (hb : ev.body = some b)
    (hlen : env.decodeLen b ≤ 25 * 1024 * 1024) :
    handlerTry env oc tr ev = openaiStage env oc tr := by
  simp [handlerTry, hkey, hprobe, hct, hb, Nat.not_lt.mpr hlen]

/-- On a POST whose pipeline reaches a successful transcription, the handler
returns the 200 success envelope, with `bengali` given by `bengaliValue`. -/
theorem handler_success_shape (env : Env) (oc : OpenAICall) (tr : TranslateCall)
    (ev : Event) (b : String) (status : Nat) (errText : String) (t : TransJson)
    (hm : ev.httpMethod = "POST")
    (hkey : optStrTruthy env.apiKey = true)
    (hprobe : probeStep env ev = none)
    (hct : (optStrTruthy (contentTypeOf ev) &&
        strIncludes ((contentTypeOf ev).getD "") "multipart/form-data") = true)
    (hb : ev.body = some b)
    (hlen : env.decodeLen b ≤ 25 * 1024 * 1024)
    (hoc : oc = .resp status errText (.ok t))
    (hok : fetchOk status = true) :
    handler env oc tr ev =
      { statusCode := 200, headers := corsHeaders,
        body := .obj
          [("success", .jbool true),
           ("original", .jstr (jsOrStr t.text "")),
           ("bengali", bengaliValue tr (jsOrStr t.text "")),
           ("language_detected", .jstr (jsOrStr t.language "unknown")),
           ("confidence", .jnum (19 / 20 : Rat)),
           ("timestamp", .jnum env.now),
           ("model", .jstr "whisper-1"),
           ("duration", jsNumOrNull t.duration)] } := by
  subst hoc
  have hred := handlerTry_reaches_openai env (OpenAICall.resp status errText (Except.ok t))
    tr ev b hkey hprobe hct hb hlen
  simp [handler, hm, hred, openaiStage, hok]

/-!
## Witness fixtures

Concrete oracle environments, events, and call outcomes used to instantiate
the hypotheses of the claim theorems.
-/

/-- An environment with a configured credential whose `JSON.parse` throws. -/
def envOk : Env :=
  { apiKey := some "sk-test-key", jsonParse := fun _ => none,
    decodeLen := fun _ => 2048, now := 1700000000000 }

/-- An environment with the credential absent. -/
def envNoKey : Env :=
  { apiKey := none, jsonParse := fun _ => some (.jobj [("test", .jbool true)]),
    decodeLen := fun _ => 0, now := 1700000000000 }

/-- An environment whose `JSON.parse` yields an object with `test: true`. -/
def envProbe : Env :=
  { apiKey := some "sk-test-key", jsonParse := fun _ => some (.jobj [("test", .jbool true)]),
    decodeLen := fun _ => 14, now := 1700000000000 }

/-- A multipart POST upload event with a small base64 body. -/
def evUpload : Event :=
  { httpMethod := "POST", ctLower := some "multipart/form-data; boundary=xyz",
    ctUpper := none, body := some "QUJDRA==" }

/-- A POST event carrying the JSON probe body. -/
def evProbe : Event :=
  { httpMethod := "POST", ctLower := none, ctUpper := none,
    body := some "\x7b\"test\": true\x7d" }

/-!
## Claims
-/

/-- C9: every response returned by the handler, on every path, carries the
CORS headers `Access-Control-Allow-Origin: *`,
`Access-Control-Allow-Methods: POST, OPTIONS`,
`Access-Control-Allow-Headers: Content-Type, Authorization`, and
`Content-Type: application/json`. -/
theorem c9_every_response_carries_cors_headers (env : Env) (oc : OpenAICall)
    (tr : TranslateCall) (ev : Event) :
    (handler env oc tr ev).headers.lookup "Access-Control-Allow-Origin" = some "*" ∧
    (handler env oc tr ev).headers.lookup "Access-Control-Allow-Methods" = some "POST, OPTIONS" ∧
    (handler env oc tr ev).headers.lookup "Access-Control-Allow-Headers" = some "Content-Type, Authorization" ∧
    (handler env oc tr ev).headers.lookup "Content-Type" = some "application/json" := by
  have h : (handler env oc tr ev).headers = corsHeaders := by
    unfold handler
    split
    · rfl
    · split
      · rfl
      · split <;> rfl
  rw [h]
  refine ⟨rfl, rfl, rfl, rfl⟩

/-- C6: on any POST request, when the transcription-service credential is
absent from the environment, the handler returns the 500
configuration-missing response with `error`, `setup` and `help` fields —
independently of the body, the headers, and both external-call oracles, so no
external call and no body inspection can influence it (in particular a
`test: true` probe body also receives this 500). -/
theorem c6_missing_credential_500 (env : Env) (oc : OpenAICall)
    (tr : TranslateCall) (ev : Event)
    (hkey : env.apiKey = none) (hm : ev.httpMethod = "POST") :
    handler env oc tr ev =
      { statusCode := 500, headers := corsHeaders,
        body := .obj
          [("error", .jstr "OpenAI API key not configured"),
           ("setup", .jstr "Add OPENAI_API_KEY to Netlify environment variables"),
           ("help", .jstr "Go to Site Settings > Environment Variables in Netlify dashboard")] } := by
  simp [handler, handlerTry, hm, hkey, optStrTruthy]

/-- Witness for C6: the probe body `test: true` with a missing credential
still yields the configuration-missing 500. -/
theorem c6_missing_credential_500_witness :
    handler envNoKey (.throws "unreached") .throws evProbe =
      { statusCode := 500, headers := corsHeaders,
        body := .obj
          [("error", .jstr "OpenAI API key not configured"),
           ("setup", .jstr "Add OPENAI_API_KEY to Netlify environment variables"),
           ("help", .jstr "Go to Site Settings > Environment Variables in Netlify dashboard")] } :=
  c6_missing_credential_500 envNoKey (.throws "unreached") .throws evProbe rfl rfl

/-- C7: on a POST with a truthy credential whose body parses as JSON with
`test === true`, the handler returns the 200 probe response with
`success: true` and `apiKeyPresent: true`, independently of the content-type
headers, the decoded size, and both external-call oracles. -/
theorem c7_probe_short_circuit (env : Env) (oc : OpenAICall)
    (tr : TranslateCall) (ev : Event) (b : String) (v : JVal)
    (hm : ev.httpMethod = "POST")
    (hkey : optStrTruthy env.apiKey = true)
    (hb : ev.body = some b) (hbne : b ≠ "")
    (hparse : env.jsonParse b = some v)
    (htest : v.getProp "test" = some (.jbool true)) :
    handler env oc tr ev =
      { statusCode := 200, headers := corsHeaders,
        body := .obj
          [("success", .jbool true),
           ("message", .jstr "API connected successfully"),
           ("timestamp", .jnum env.now),
           ("apiKeyPresent", .jbool true)] } := by
  simp [handler, handlerTry, probeStep, hm, hkey, hb, hbne, hparse, htest]

/-- Witness for C7: a concrete probe request against a configured credential
yields the probe 200, with the external-call oracles set to outcomes that
would be visible had they been consulted. -/
theorem c7_probe_short_circuit_witness :
    handler envProbe (.throws "unreached") .throws evProbe =
      { statusCode := 200, headers := corsHeaders,
        body := .obj
          [("success", .jbool true),
           ("message", .jstr "API connected successfully"),
           ("timestamp", .jnum (1700000000000 : Nat)),
           ("apiKeyPresent", .jbool true)] } :=
  c7_probe_short_circuit envProbe (.throws "unreached") .throws evProbe
    "\x7b\"test\": true\x7d" (.jobj [("test", .jbool true)])
    rfl rfl rfl (by decide) rfl rfl

/-- C4: any exception thrown inside the handler's processing pipeline (the
`try` block) on a POST is caught at top level and converted into a 500
response whose body carries an `error` field, a `message` field equal to the
exception's message, and a `timestamp`. -/
theorem c4_top_level_catch_500 (env : Env) (oc : OpenAICall)
    (tr : TranslateCall) (ev : Event) (msg : String)
    (hm : ev.httpMethod = "POST")
    (hthrow : handlerTry env oc tr ev = .error msg) :
    handler env oc tr ev =
      { statusCode := 500, headers := corsHeaders,
        body := .obj
          [("error", .jstr "Internal server error during transcription"),
           ("message", .jstr msg),
           ("timestamp", .jnum env.now)] } := by
  simp [handler, hm, hthrow]

/-- Witness for C4: a rejected transcription fetch (message "fetch failed")
reaches the top-level catch and produces the internal-error 500. -/
theorem c4_top_level_catch_500_witness :
    handler envOk (.throws "fetch failed") .throws evUpload =
      { statusCode := 500, headers := corsHeaders,
        body := .obj
          [("error", .jstr "Internal server error during transcription"),
           ("message", .jstr "fetch failed"),
           ("timestamp", .jnum (1700000000000 : Nat))] } :=
  c4_top_level_catch_500 envOk (.throws "fetch failed") .throws evUpload
    "fetch failed" rfl rfl

/-- Transcription JSON with Bengali text (skips translation). -/
def tjBengali : TransJson :=
  { text := some "আমি ভালো আছি", language := some "bn", duration := some 3 }

/-- A successful transcription call returning Bengali text. -/
def ocBengali : OpenAICall := .resp 200 "" (.ok tjBengali)

/-- Transcription JSON with English text (triggers translation). -/
def tjHello : TransJson :=
  { text := some "Hello world", language := some "en", duration := none }

/-- A successful transcription call returning English text. -/
def ocHello : OpenAICall := .resp 200 "" (.ok tjHello)

/-- C1: on a successful transcription whose text contains at least one
character of U+0980–U+09FF (a presence test over any single character), the
handler's result is independent of the translation oracle (the translation
service is never called) and the success response's `bengali` field equals
its `original` field, both being the transcribed text. -/
theorem c1_bengali_presence_skips_translation (env : Env) (oc : OpenAICall)
    (tr tr' : TranslateCall) (ev : Event) (b : String)
    (status : Nat) (errText : String) (t : TransJson)
    (hm : ev.httpMethod = "POST")
    (hkey : optStrTruthy env.apiKey = true)
    (hprobe : probeStep env ev = none)
    (hct : (optStrTruthy (contentTypeOf ev) &&
        strIncludes ((contentTypeOf ev).getD "") "multipart/form-data") = true)
    (hb : ev.body = some b)
    (hlen : env.decodeLen b ≤ 25 * 1024 * 1024)
    (hoc : oc = .resp status errText (.ok t))
    (hok : fetchOk status = true)
    (hben : hasBengali (jsOrStr t.text "") = true) :
    handler env oc tr ev = handler env oc tr' ev ∧
    (handler env oc tr ev).field "bengali" = some (.jstr (jsOrStr t.text "")) ∧
    (handler env oc tr ev).field "original" = some (.jstr (jsOrStr t.text "")) := by
  have h1 := handler_success_shape env oc tr ev b status errText t hm hkey hprobe hct hb hlen hoc hok
  have h2 := handler_success_shape env oc tr' ev b status errText t hm hkey hprobe hct hb hlen hoc hok
  have hbv : ∀ tr0 : TranslateCall,
      bengaliValue tr0 (jsOrStr t.text "") = .jstr (jsOrStr t.text "") := by
    intro tr0
    simp [bengaliValue, hben]
  rw [h1, h2, hbv tr, hbv tr']
  exact ⟨rfl, rfl, rfl⟩

/-- Witness for C1: a Bengali transcription gives the same response under two
different translation oracles, with `bengali` equal to `original`. -/
theorem c1_bengali_presence_skips_translation_witness :
    handler envOk ocBengali .throws evUpload =
      handler envOk ocBengali (.resp 200 (some (.jarr []))) evUpload ∧
    (handler envOk ocBengali .throws evUpload).field "bengali" =
      some (.jstr (jsOrStr tjBengali.text "")) ∧
    (handler envOk ocBengali .throws evUpload).field "original" =
      some (.jstr (jsOrStr tjBengali.text "")) :=
  c1_bengali_presence_skips_translation envOk ocBengali .throws
    (.resp 200 (some (.jarr []))) evUpload "QUJDRA==" 200 "" tjBengali
    rfl rfl rfl (by decide) rfl (by decide) rfl rfl (by decide)

/-- C2: on a successful transcription where translation is attempted (no
Bengali character, non-blank text) and the helper fails in any way
(`translateToBengali` yields `null`), the handler still returns status 200,
`bengali` falls back to `original`, and the body's fields are exactly the
eight success fields — none reports the translation failure. -/
theorem c2_translation_failure_swallowed (env : Env) (oc : OpenAICall)
    (tr : TranslateCall) (ev : Event) (b : String)
    (status : Nat) (errText : String) (t : TransJson)
    (hm : ev.httpMethod = "POST")
    (hkey : optStrTruthy env.apiKey = true)
    (hprobe : probeStep env ev = none)
    (hct : (optStrTruthy (contentTypeOf ev) &&
        strIncludes ((contentTypeOf ev).getD "") "multipart/form-data") = true)
    (hb : ev.body = some b)
    (hlen : env.decodeLen b ≤ 25 * 1024 * 1024)
    (hoc : oc = .resp status errText (.ok t))
    (hok : fetchOk status = true)
    (hben : hasBengali (jsOrStr t.text "") = false)
    (htrim : jsTrim (jsOrStr t.text "") ≠ "")
    (htr : translateToBengali tr = none) :
    (handler env oc tr ev).statusCode = 200 ∧
    (handler env oc tr ev).field "bengali" = some (.jstr (jsOrStr t.text "")) ∧
    (handler env oc tr ev).field "original" = some (.jstr (jsOrStr t.text "")) ∧
    (handler env oc tr ev).keys =
      ["success", "original", "bengali", "language_detected", "confidence",
       "timestamp", "model", "duration"] := by
  have h1 := handler_success_shape env oc tr ev b status errText t hm hkey hprobe hct hb hlen hoc hok
  have hbv : bengaliValue tr (jsOrStr t.text "") = .jstr (jsOrStr t.text "") := by
    simp [bengaliValue, hben, htrim, htr]
  rw [h1, hbv]
  exact ⟨rfl, rfl, rfl, rfl⟩

/-- Witness for C2: an English transcription with a rejected translation
fetch still yields 200 with `bengali` equal to `original`. -/
theorem c2_translation_failure_swallowed_witness :
    (handler envOk ocHello .throws evUpload).statusCode = 200 ∧
    (handler envOk ocHello .throws evUpload).field "bengali" =
      some (.jstr (jsOrStr tjHello.text "")) ∧
    (handler envOk ocHello .throws evUpload).field "original" =
      some (.jstr (jsOrStr tjHello.text "")) ∧
    (handler envOk ocHello .throws evUpload).keys =
      ["success", "original", "bengali", "language_detected", "confidence",
       "timestamp", "model", "duration"] :=
  c2_translation_failure_swallowed envOk ocHello .throws evUpload "QUJDRA=="
    200 "" tjHello rfl rfl rfl (by decide) rfl (by decide) rfl rfl (by decide)
    (by decide) rfl

/-- C3: a non-success transcription response is propagated: the handler's
status equals the upstream status, `error` is selected by that status
(401 invalid key, 429 rate limit, 413 too large, otherwise generic), and the
body carries the raw upstream body under `details` and the status under
`status`. -/
theorem c3_upstream_error_propagated (env : Env) (oc : OpenAICall)
    (tr : TranslateCall) (ev : Event) (b : String)
    (status : Nat) (errText : String) (j : Except String TransJson)
    (hm : ev.httpMethod = "POST")
    (hkey : optStrTruthy env.apiKey = true)
    (hprobe : probeStep env ev = none)
    (hct : (optStrTruthy (contentTypeOf ev) &&
        strIncludes ((contentTypeOf ev).getD "") "multipart/form-data") = true)
    (hb : ev.body = some b)
    (hlen : env.decodeLen b ≤ 25 * 1024 * 1024)
    (hoc : oc = .resp status errText j)
    (hnok : fetchOk status = false) :
    handler env oc tr ev =
      { statusCode := status, headers := corsHeaders,
        body := .obj
          [("error", .jstr
             (if status = 401 then "Invalid OpenAI API key. Please check your key."
              else if status = 429 then "OpenAI API rate limit exceeded. Please try again later."
              else if status = 413 then "Audio file too large for OpenAI API."
              else "OpenAI API request failed")),
           ("details", .jstr errText),
           ("status", .jnum status)] } := by
  subst hoc
  have hred := handlerTry_reaches_openai env (OpenAICall.resp status errText j)
    tr ev b hkey hprobe hct hb hlen
  simp [handler, hm, hred, openaiStage, hnok, openaiErrorMessage]

/-- Witness for C3: an upstream 401 propagates status 401 with the
invalid-credential message and the raw body under `details`. -/
theorem c3_upstream_error_propagated_witness :
    handler envOk (.resp 401 "Incorrect API key provided" (.error "unused"))
        .throws evUpload =
      { statusCode := 401, headers := corsHeaders,
        body := .obj
          [("error", .jstr "Invalid OpenAI API key. Please check your key."),
           ("details", .jstr "Incorrect API key provided"),
           ("status", .jnum (401 : Nat))] } :=
  c3_upstream_error_propagated envOk
    (.resp 401 "Incorrect API key provided" (.error "unused")) .throws evUpload
    "QUJDRA==" 401 "Incorrect API key provided" (.error "unused")
    rfl rfl rfl (by decide) rfl (by decide) rfl rfl

/-- An environment whose decoded body length is 26 MiB. -/
def envBig : Env :=
  { apiKey := some "sk-test-key", jsonParse := fun _ => none,
    decodeLen := fun _ => 26 * 1024 * 1024, now := 1700000000000 }

/-- C5: a POST multipart upload whose decoded byte length strictly exceeds
25 * 1024 * 1024 bytes is rejected with status 400 and a `fileSize` field of
the length divided by 1024*1024 rounded to the nearest integer (half up,
as `Math.round`) followed by "MB", independently of both external-call
oracles; a decoded length of exactly 25 MiB passes this check and the
pipeline proceeds to the transcription stage. -/
theorem c5_payload_too_large (env : Env) (oc oc' : OpenAICall)
    (tr tr' : TranslateCall) (ev : Event) (b : String)
    (hm : ev.httpMethod = "POST")
    (hkey : optStrTruthy env.apiKey = true)
    (hprobe : probeStep env ev = none)
    (hct : (optStrTruthy (contentTypeOf ev) &&
        strIncludes ((contentTypeOf ev).getD "") "multipart/form-data") = true)
    (hb : ev.body = some b) :
    (env.decodeLen b > 25 * 1024 * 1024 →
      handler env oc tr ev =
        { statusCode := 400, headers := corsHeaders,
          body := .obj
            [("error", .jstr "Audio file too large. Maximum size is 25MB."),
             ("fileSize", .jstr
               (toString ((2 * env.decodeLen b + 1024 * 1024) / (2 * (1024 * 1024))) ++ "MB"))] } ∧
      handler env oc tr ev = handler env oc' tr' ev) ∧
    (env.decodeLen b = 25 * 1024 * 1024 →
      handlerTry env oc tr ev = openaiStage env oc tr) := by
  constructor
  · intro hlen
    have key : ∀ (oc0 : OpenAICall) (tr0 : TranslateCall),
        handler env oc0 tr0 ev =
          { statusCode := 400, headers := corsHeaders,
            body := .obj
              [("error", .jstr "Audio file too large. Maximum size is 25MB."),
               ("fileSize", .jstr
                 (toString ((2 * env.decodeLen b + 1024 * 1024) / (2 * (1024 * 1024))) ++ "MB"))] } := by
      intro oc0 tr0
      simp [handler, handlerTry, hm, hkey, hprobe, hct, hb, hlen, mbRound,
        Nat.mul_comm]
    exact ⟨key oc tr, (key oc tr).trans (key oc' tr').symm⟩
  · intro hlen
    exact handlerTry_reaches_openai env oc tr ev b hkey hprobe hct hb (le_of_eq hlen)

/-- Witness for C5: a 26 MiB decoded body is rejected with `fileSize` "26MB"
under two different external-call oracle pairs. -/
theorem c5_payload_too_large_witness :
    handler envBig (.throws "unreached") .throws evUpload =
      { statusCode := 400, headers := corsHeaders,
        body := .obj
          [("error", .jstr "Audio file too large. Maximum size is 25MB."),
           ("fileSize", .jstr
             (toString ((2 * envBig.decodeLen "QUJDRA==" + 1024 * 1024) / (2 * (1024 * 1024))) ++ "MB"))] } ∧
    handler envBig (.throws "unreached") .throws evUpload =
      handler envBig (.resp 200 "" (.ok tjHello)) (.resp 200 (some (.jarr []))) evUpload :=
  (c5_payload_too_large envBig (.throws "unreached") (.resp 200 "" (.ok tjHello))
    .throws (.resp 200 (some (.jarr []))) evUpload "QUJDRA=="
    rfl rfl rfl (by decide) rfl).1 (by decide)

/-- The check that the 26 MiB witness reports exactly the string "26MB". -/
theorem c5_fileSize_is_26MB :
    toString ((2 * envBig.decodeLen "QUJDRA==" + 1024 * 1024) / (2 * (1024 * 1024))) ++ "MB" = "26MB" := by
  decide

/-- Transcription JSON reporting a zero duration and an empty language tag. -/
def tjZero : TransJson :=
  { text := some "বাংলা", language := some "", duration := some 0 }

/-- A successful transcription call whose JSON is `tjZero`. -/
def ocZero : OpenAICall := .resp 200 "" (.ok tjZero)

/-- Counterexample to C8 as stated: the transcription service reports
`duration: 0` and `language: ""`, yet the success response carries
`duration: null` (not the reported `0`) and `language_detected: "unknown"`
(not the reported `""`), because the source uses JavaScript `||` defaulting,
which also replaces falsy reported values. -/
theorem c8_duration_language_counterexample :
    ocZero = OpenAICall.resp 200 ""
      (Except.ok { text := some "বাংলা", language := some "", duration := some (0 : Rat) }) ∧
    (handler envOk ocZero .throws evUpload).field "duration" = some JVal.jnull ∧
    JVal.jnull ≠ JVal.jnum 0 ∧
    (handler envOk ocZero .throws evUpload).field "language_detected" =
      some (.jstr "unknown") ∧
    JVal.jstr "unknown" ≠ JVal.jstr "" := by
  refine ⟨rfl, rfl, fun h => JVal.noConfusion h, rfl, fun h => ?_⟩
  have h2 : "unknown" = "" := JVal.jstr.inj h
  exact absurd h2 (by decide)

/-- C8 (amended): on every successful transcription, `duration` equals the
duration reported by the service when it is present and nonzero, and is null
when the service reports none or reports `0`; `language_detected` equals the
reported language tag when it is present and nonempty, and is "unknown" when
the service reports none or reports the empty string. -/
theorem c8_duration_language_defaulting (env : Env) (oc : OpenAICall)
    (tr : TranslateCall) (ev : Event) (b : String)
    (status : Nat) (errText : String) (t : TransJson)
    (hm : ev.httpMethod = "POST")
    (hkey : optStrTruthy env.apiKey = true)
    (hprobe : probeStep env ev = none)
    (hct : (optStrTruthy (contentTypeOf ev) &&
        strIncludes ((contentTypeOf ev).getD "") "multipart/form-data") = true)
    (hb : ev.body = some b)
    (hlen : env.decodeLen b ≤ 25 * 1024 * 1024)
    (hoc : oc = .resp status errText (.ok t))
    (hok : fetchOk status = true) :
    (handler env oc tr ev).field "duration" =
      some (match t.duration with
        | some d => if d = 0 then JVal.jnull else JVal.jnum d
        | none => JVal.jnull) ∧
    (handler env oc tr ev).field "language_detected" =
      some (JVal.jstr (match t.language with
        | some s => if s = "" then "unknown" else s
        | none => "unknown")) := by
  have h1 := handler_success_shape env oc tr ev b status errText t hm hkey hprobe hct hb hlen hoc hok
  rw [h1]
  exact ⟨by cases t.duration <;> rfl, by cases t.language <;> rfl⟩

/-- Witness for the amended C8: a response with an absent duration and a
present language tag carries `duration: null` and that tag. -/
theorem c8_duration_language_defaulting_witness :
    (handler envOk ocHello .throws evUpload).field "duration" =
      some (match tjHello.duration with
        | some d => if d = 0 then JVal.jnull else JVal.jnum d
        | none => JVal.jnull) ∧
    (handler envOk ocHello .throws evUpload).field "language_detected" =
      some (JVal.jstr (match tjHello.language with
        | some s => if s = "" then "unknown" else s
        | none => "unknown")) :=
  c8_duration_language_defaulting envOk ocHello .throws evUpload "QUJDRA=="
    200 "" tjHello rfl rfl rfl (by decide) rfl (by decide) rfl rfl

/-- A translation response in the Google nested-array shape whose first
translated segment is the empty string. -/
def dataEmptySegment : JVal :=
  .jarr [.jarr [.jarr [.jstr "", .jstr "Hello world"]]]

/-- C10: when the translation service responds successfully in the expected
nested-array shape but the extracted first segment `data[0][0][0]` is the
empty string, the helper returns `null` rather than the empty string, and the
success response's `bengali` field falls back to equal `original`. -/
theorem c10_empty_segment_falls_back (env : Env) (oc : OpenAICall)
    (tr : TranslateCall) (ev : Event) (b : String)
    (status : Nat) (errText : String) (t : TransJson)
    (tstatus : Nat) (data : JVal)
    (hm : ev.httpMethod = "POST")
    (hkey : optStrTruthy env.apiKey = true)
    (hprobe : probeStep env ev = none)
    (hct : (optStrTruthy (contentTypeOf ev) &&
        strIncludes ((contentTypeOf ev).getD "") "multipart/form-data") = true)
    (hb : ev.body = some b)
    (hlen : env.decodeLen b ≤ 25 * 1024 * 1024)
    (hoc : oc = .resp status errText (.ok t))
    (hok : fetchOk status = true)
    (hben : hasBengali (jsOrStr t.text "") = false)
    (htrim : jsTrim (jsOrStr t.text "") ≠ "")
    (htr : tr = .resp tstatus (some data))
    (htok : fetchOk tstatus = true)
    (hd1 : data.truthy = true)
    (hd2 : (data.idx 0).truthy = true)
    (hd3 : ((data.idx 0).idx 0).truthy = true)
    (hd4 : ((data.idx 0).idx 0).idx 0 = JVal.jstr "") :
    translateToBengali tr = none ∧
    (handler env oc tr ev).field "bengali" = some (.jstr (jsOrStr t.text "")) ∧
    (handler env oc tr ev).field "original" = some (.jstr (jsOrStr t.text "")) := by
  have htnone : translateToBengali tr = none := by
    simp [translateToBengali, htr, htok, hd1, hd2, hd3, hd4, JVal.truthy]
  have h1 := handler_success_shape env oc tr ev b status errText t hm hkey hprobe hct hb hlen hoc hok
  have hbv : bengaliValue tr (jsOrStr t.text "") = .jstr (jsOrStr t.text "") := by
    simp [bengaliValue, hben, htrim, htnone]
  rw [h1, hbv]
  exact ⟨htnone, rfl, rfl⟩

/-- Witness for C10: a well-shaped translation response with an empty first
segment makes the helper yield `null` and the response fall back. -/
theorem c10_empty_segment_falls_back_witness :
    translateToBengali (.resp 200 (some dataEmptySegment)) = none ∧
    (handler envOk ocHello (.resp 200 (some dataEmptySegment)) evUpload).field "bengali" =
      some (.jstr (jsOrStr tjHello.text "")) ∧
    (handler envOk ocHello (.resp 200 (some dataEmptySegment)) evUpload).field "original" =
      some (.jstr (jsOrStr tjHello.text "")) :=
  c10_empty_segment_falls_back envOk ocHello (.resp 200 (some dataEmptySegment))
    evUpload "QUJDRA==" 200 "" tjHello 200 dataEmptySegment
    rfl rfl rfl (by decide) rfl (by decide) rfl rfl (by decide) (by decide)
    rfl rfl rfl rfl rfl rfl
